import Mathlib

/-!
Shallow embedding of `syft/messaging/message.py`: the wire-message layer of
PySyft.  Message variants are Lean structures; the two external codecs (the
generic msgpack serde and the structured protobuf serde) are passed in as
explicit record-of-functions parameters, mirroring the ambient
`sy.serde.msgpack.serde` / `sy.serde.protobuf.serde` globals of the source.
Failure (a Python exception escaping a decode call) is modelled with
`Except String`.
-/

/-- Python-level payload values handled by the messaging layer: the opaque
universe of values the serde codecs recursively encode.  Tuples are built
from `tcons`/`tnil` cells; the `action` constructor embeds a computation
action descriptor as a single serializable node, as the generic codec treats
`ComputationAction` as one addressable value. -/
inductive PyObj where
  | none : PyObj
  | int (n : Int) : PyObj
  | str (s : String) : PyObj
  | boolean (b : Bool) : PyObj
  | tnil : PyObj
  | tcons (head tail : PyObj) : PyObj
  | action (name target args kwargs return_ids : PyObj) : PyObj
  deriving DecidableEq, Repr

/-- Build the Python tuple value holding the given elements in order. -/
def PyObj.tupleOf : List PyObj → PyObj
  | [] => PyObj.tnil
  | x :: xs => PyObj.tcons x (PyObj.tupleOf xs)

/-- The worker context threaded through every serde call
(`syft.workers.abstract.AbstractWorker`); opaque at this layer. -/
structure AbstractWorker where
  id : Nat
  deriving DecidableEq, Repr

/-- Modelled from the spec: the Generic Value Codec
(`sy.serde.msgpack.serde`, section 6 of the spec) is an external collaborator
not among the sampled sources.  `_simplify` recursively encodes a value into
an intermediate form and `_detail` decodes one; a decode failure
(DecodeError) is modelled as `Except.error`. -/
structure MsgpackSerde where
  _simplify : AbstractWorker → PyObj → PyObj
  _detail : AbstractWorker → PyObj → Except String PyObj

/-- Body of `Message.__init__`: the `_contents` attribute is stored only when
the constructor argument is not None. -/
def initContents (contents : PyObj) : Option PyObj :=
  if contents = PyObj.none then Option.none else Option.some contents

/-- Body of the `Message.contents` property: the stored `_contents` attribute
when present (`hasattr` check), else Python None. -/
def contentsView : Option PyObj → PyObj
  | Option.some c => c
  | Option.none => PyObj.none

/-- Base `Message` envelope: an optionally present `_contents` attribute. -/
structure Message where
  _contents : Option PyObj
  deriving DecidableEq, Repr

/-- Construct a base `Message` (its `__init__`). -/
def Message.init (contents : PyObj) : Message :=
  ⟨initContents contents⟩

/-- The `Message.contents` property. -/
def Message.contents (m : Message) : PyObj :=
  contentsView m._contents

/-- The `Message._simplify` instance method: the one-tuple of the contents. -/
def Message._simplify (self : Message) : List PyObj :=
  [self.contents]

/-- Static `Message.simplify`: one-tuple holding the simplified contents. -/
def Message.simplify (sd : MsgpackSerde) (worker : AbstractWorker) (ptr : Message) : List PyObj :=
  [sd._simplify worker ptr.contents]

/-- Static `Message.detail`: detail element 0 of the tuple and wrap it in a
base `Message` (the fallback detailer). -/
def Message.detail (sd : MsgpackSerde) (worker : AbstractWorker) (msg_tuple : List PyObj) :
    Except String Message :=
  match msg_tuple with
  | [] => Except.error "IndexError: tuple index out of range"
  | x :: _ => (sd._detail worker x).map Message.init

/-- Modelled from the spec: `ComputationAction`
(`syft.execution.computation`) is not among the sampled sources; per spec
section 3 the action descriptor stores (name, target, args, kwargs,
return_ids) verbatim, and this layer only transports the fields. -/
structure ComputationAction where
  name : PyObj
  target : PyObj
  args : PyObj
  kwargs : PyObj
  return_ids : PyObj
  deriving DecidableEq, Repr

/-- View a `ComputationAction` as the serializable payload node the generic
codec receives. -/
def ComputationAction.toPyObj (a : ComputationAction) : PyObj :=
  PyObj.action a.name a.target a.args a.kwargs a.return_ids

/-- `CommandMessage`: wraps an owned `ComputationAction` (its `__init__`
calls the parent constructor with no contents, so no `_contents` attribute
is ever stored). -/
structure CommandMessage where
  action : ComputationAction
  deriving DecidableEq, Repr

/-- `CommandMessage.__init__`: builds the owned `ComputationAction`. -/
def CommandMessage.init (name target args_ kwargs_ return_ids : PyObj) : CommandMessage :=
  ⟨ComputationAction.mk name target args_ kwargs_ return_ids⟩

/-- The `CommandMessage.name` property. -/
def CommandMessage.name (m : CommandMessage) : PyObj := m.action.name

/-- The `CommandMessage.target` property. -/
def CommandMessage.target (m : CommandMessage) : PyObj := m.action.target

/-- The `CommandMessage.args` property. -/
def CommandMessage.args (m : CommandMessage) : PyObj := m.action.args

/-- The `CommandMessage.kwargs` property. -/
def CommandMessage.kwargs (m : CommandMessage) : PyObj := m.action.kwargs

/-- The `CommandMessage.return_ids` property. -/
def CommandMessage.return_ids (m : CommandMessage) : PyObj := m.action.return_ids

/-- The `CommandMessage.contents` property:
`((name, target, args, kwargs), return_ids)`. -/
def CommandMessage.contents (m : CommandMessage) : PyObj :=
  PyObj.tupleOf
    [PyObj.tupleOf [m.action.name, m.action.target, m.action.args, m.action.kwargs],
     m.action.return_ids]

/-- Static `CommandMessage.simplify`: one-tuple holding the simplified
action. -/
def CommandMessage.simplify (sd : MsgpackSerde) (worker : AbstractWorker)
    (ptr : CommandMessage) : List PyObj :=
  [sd._simplify worker ptr.action.toPyObj]

/-- Static `CommandMessage.detail`: detail element 0, then copy the five
fields of the detailed action into a fresh `CommandMessage`.  Attribute
access on a non-action detailed value raises (AttributeError). -/
def CommandMessage.detail (sd : MsgpackSerde) (worker : AbstractWorker)
    (msg_tuple : List PyObj) : Except String CommandMessage :=
  match msg_tuple with
  | [] => Except.error "IndexError: tuple index out of range"
  | x :: _ =>
    match sd._detail worker x with
    | Except.error e => Except.error e
    | Except.ok (PyObj.action n t a k r) => Except.ok (CommandMessage.init n t a k r)
    | Except.ok _ => Except.error "AttributeError: detailed object is not an action"

/-- Modelled from the spec: an opaque schema-typed wire value of the
Structured Schema Codec (a protobuf sub-message). -/
structure PBValue where
  raw : PyObj
  deriving DecidableEq, Repr

/-- `CommandMessagePB` (`syft_proto.messaging.v1`): a protobuf envelope whose
single field `action` receives `CopyFrom` of the bufferized action. -/
structure CommandMessagePB where
  action : PBValue
  deriving DecidableEq, Repr

/-- `ObjectMessagePB` (`syft_proto.messaging.v1`): a protobuf envelope whose
single field `tensor` receives `CopyFrom` of the bufferized contents. -/
structure ObjectMessagePB where
  tensor : PBValue
  deriving DecidableEq, Repr

/-- Modelled from the spec: `ComputationAction.bufferize` and
`ComputationAction.unbufferize` (`syft.execution.computation`) belong to an
external module; they are the Structured Schema Codec on action
descriptors. -/
structure ActionPBCodec where
  bufferize : AbstractWorker → ComputationAction → PBValue
  unbufferize : AbstractWorker → PBValue → ComputationAction

/-- Modelled from the spec: the protobuf serde (`sy.serde.protobuf.serde`)
is an external collaborator bufferizing arbitrary payload values. -/
structure ProtobufSerde where
  _bufferize : AbstractWorker → PyObj → PBValue
  _unbufferize : AbstractWorker → PBValue → PyObj

/-- Static `CommandMessage.bufferize`: bufferize the action and copy it into
the protobuf envelope. -/
def CommandMessage.bufferize (apc : ActionPBCodec) (worker : AbstractWorker)
    (action_message : CommandMessage) : CommandMessagePB :=
  ⟨apc.bufferize worker action_message.action⟩

/-- Static `CommandMessage.unbufferize`: unbufferize the embedded action and
copy its five fields into a fresh `CommandMessage`. -/
def CommandMessage.unbufferize (apc : ActionPBCodec) (worker : AbstractWorker)
    (protobuf_obj : CommandMessagePB) : CommandMessage :=
  let detailed := apc.unbufferize worker protobuf_obj.action
  CommandMessage.init detailed.name detailed.target detailed.args detailed.kwargs
    detailed.return_ids

/-- `ObjectMessage`: a simple payload-wrapping variant. -/
structure ObjectMessage where
  _contents : Option PyObj
  deriving DecidableEq, Repr

/-- `ObjectMessage.__init__` (delegates to `Message.__init__`). -/
def ObjectMessage.init (contents : PyObj) : ObjectMessage :=
  ⟨initContents contents⟩

/-- The inherited `contents` property on `ObjectMessage`. -/
def ObjectMessage.contents (m : ObjectMessage) : PyObj :=
  contentsView m._contents

/-- The inherited `Message.simplify` applied to an `ObjectMessage`. -/
def ObjectMessage.simplify (sd : MsgpackSerde) (worker : AbstractWorker)
    (ptr : ObjectMessage) : List PyObj :=
  [sd._simplify worker ptr.contents]

/-- Static `ObjectMessage.detail`: detail element 0 and wrap it. -/
def ObjectMessage.detail (sd : MsgpackSerde) (worker : AbstractWorker)
    (msg_tuple : List PyObj) : Except String ObjectMessage :=
  match msg_tuple with
  | [] => Except.error "IndexError: tuple index out of range"
  | x :: _ => (sd._detail worker x).map ObjectMessage.init

/-- Static `ObjectMessage.bufferize`: bufferize the contents into the
`tensor` field of the protobuf envelope. -/
def ObjectMessage.bufferize (ps : ProtobufSerde) (worker : AbstractWorker)
    (message : ObjectMessage) : ObjectMessagePB :=
  ⟨ps._bufferize worker message.contents⟩

/-- Static `ObjectMessage.unbufferize`: unbufferize the `tensor` field and
wrap it in a fresh `ObjectMessage`. -/
def ObjectMessage.unbufferize (ps : ProtobufSerde) (worker : AbstractWorker)
    (protobuf_obj : ObjectMessagePB) : ObjectMessage :=
  ObjectMessage.init (ps._unbufferize worker protobuf_obj.tensor)

/-- `ObjectRequestMessage`: a simple payload-wrapping variant. -/
structure ObjectRequestMessage where
  _contents : Option PyObj
  deriving DecidableEq, Repr

/-- `ObjectRequestMessage.__init__` (delegates to `Message.__init__`). -/
def ObjectRequestMessage.init (contents : PyObj) : ObjectRequestMessage :=
  ⟨initContents contents⟩

/-- The inherited `contents` property on `ObjectRequestMessage`. -/
def ObjectRequestMessage.contents (m : ObjectRequestMessage) : PyObj :=
  contentsView m._contents

/-- The inherited `Message.simplify` applied to an `ObjectRequestMessage`. -/
def ObjectRequestMessage.simplify (sd : MsgpackSerde) (worker : AbstractWorker)
    (ptr : ObjectRequestMessage) : List PyObj :=
  [sd._simplify worker ptr.contents]

/-- Static `ObjectRequestMessage.detail`: detail element 0 and wrap it. -/
def ObjectRequestMessage.detail (sd : MsgpackSerde) (worker : AbstractWorker)
    (msg_tuple : List PyObj) : Except String ObjectRequestMessage :=
  match msg_tuple with
  | [] => Except.error "IndexError: tuple index out of range"
  | x :: _ => (sd._detail worker x).map ObjectRequestMessage.init

/-- `IsNoneMessage`: a simple payload-wrapping variant. -/
structure IsNoneMessage where
  _contents : Option PyObj
  deriving DecidableEq, Repr

/-- `IsNoneMessage.__init__` (delegates to `Message.__init__`). -/
def IsNoneMessage.init (contents : PyObj) : IsNoneMessage :=
  ⟨initContents contents⟩

/-- The inherited `contents` property on `IsNoneMessage`. -/
def IsNoneMessage.contents (m : IsNoneMessage) : PyObj :=
  contentsView m._contents

/-- The inherited `Message.simplify` applied to an `IsNoneMessage`. -/
def IsNoneMessage.simplify (sd : MsgpackSerde) (worker : AbstractWorker)
    (ptr : IsNoneMessage) : List PyObj :=
  [sd._simplify worker ptr.contents]

/-- Static `IsNoneMessage.detail`: detail element 0 and wrap it. -/
def IsNoneMessage.detail (sd : MsgpackSerde) (worker : AbstractWorker)
    (msg_tuple : List PyObj) : Except String IsNoneMessage :=
  match msg_tuple with
  | [] => Except.error "IndexError: tuple index out of range"
  | x :: _ => (sd._detail worker x).map IsNoneMessage.init

/-- `GetShapeMessage`: a simple payload-wrapping variant. -/
structure GetShapeMessage where
  _contents : Option PyObj
  deriving DecidableEq, Repr

/-- `GetShapeMessage.__init__` (delegates to `Message.__init__`). -/
def GetShapeMessage.init (contents : PyObj) : GetShapeMessage :=
  ⟨initContents contents⟩

/-- The inherited `contents` property on `GetShapeMessage`. -/
def GetShapeMessage.contents (m : GetShapeMessage) : PyObj :=
  contentsView m._contents

/-- The inherited `Message.simplify` applied to a `GetShapeMessage`. -/
def GetShapeMessage.simplify (sd : MsgpackSerde) (worker : AbstractWorker)
    (ptr : GetShapeMessage) : List PyObj :=
  [sd._simplify worker ptr.contents]

/-- Static `GetShapeMessage.detail`: detail element 0 and wrap it. -/
def GetShapeMessage.detail (sd : MsgpackSerde) (worker : AbstractWorker)
    (msg_tuple : List PyObj) : Except String GetShapeMessage :=
  match msg_tuple with
  | [] => Except.error "IndexError: tuple index out of range"
  | x :: _ => (sd._detail worker x).map GetShapeMessage.init

/-- `ForceObjectDeleteMessage`: a simple payload-wrapping variant. -/
structure ForceObjectDeleteMessage where
  _contents : Option PyObj
  deriving DecidableEq, Repr

/-- `ForceObjectDeleteMessage.__init__` (delegates to `Message.__init__`). -/
def ForceObjectDeleteMessage.init (contents : PyObj) : ForceObjectDeleteMessage :=
  ⟨initContents contents⟩

/-- The inherited `contents` property on `ForceObjectDeleteMessage`. -/
def ForceObjectDeleteMessage.contents (m : ForceObjectDeleteMessage) : PyObj :=
  contentsView m._contents

/-- The inherited `Message.simplify` applied to a `ForceObjectDeleteMessage`. -/
def ForceObjectDeleteMessage.simplify (sd : MsgpackSerde) (worker : AbstractWorker)
    (ptr : ForceObjectDeleteMessage) : List PyObj :=
  [sd._simplify worker ptr.contents]

/-- Static `ForceObjectDeleteMessage.detail`: detail element 0 and wrap it. -/
def ForceObjectDeleteMessage.detail (sd : MsgpackSerde) (worker : AbstractWorker)
    (msg_tuple : List PyObj) : Except String ForceObjectDeleteMessage :=
  match msg_tuple with
  | [] => Except.error "IndexError: tuple index out of range"
  | x :: _ => (sd._detail worker x).map ForceObjectDeleteMessage.init

/-- `SearchMessage`: a simple payload-wrapping variant. -/
structure SearchMessage where
  _contents : Option PyObj
  deriving DecidableEq, Repr

/-- `SearchMessage.__init__` (delegates to `Message.__init__`). -/
def SearchMessage.init (contents : PyObj) : SearchMessage :=
  ⟨initContents contents⟩

/-- The inherited `contents` property on `SearchMessage`. -/
def SearchMessage.contents (m : SearchMessage) : PyObj :=
  contentsView m._contents

/-- The inherited `Message.simplify` applied to a `SearchMessage`. -/
def SearchMessage.simplify (sd : MsgpackSerde) (worker : AbstractWorker)
    (ptr : SearchMessage) : List PyObj :=
  [sd._simplify worker ptr.contents]

/-- Static `SearchMessage.detail`: detail element 0 and wrap it. -/
def SearchMessage.detail (sd : MsgpackSerde) (worker : AbstractWorker)
    (msg_tuple : List PyObj) : Except String SearchMessage :=
  match msg_tuple with
  | [] => Except.error "IndexError: tuple index out of range"
  | x :: _ => (sd._detail worker x).map SearchMessage.init

/-- `PlanCommandMessage`: named-command variant storing `command_name` and
`message` (its `__init__` calls the parent constructor with no contents). -/
structure PlanCommandMessage where
  command_name : PyObj
  message : PyObj
  deriving DecidableEq, Repr

/-- `PlanCommandMessage.__init__`. -/
def PlanCommandMessage.init (command_name message : PyObj) : PlanCommandMessage :=
  ⟨command_name, message⟩

/-- The `PlanCommandMessage.contents` property: `(command_name, message)`. -/
def PlanCommandMessage.contents (m : PlanCommandMessage) : PyObj :=
  PyObj.tupleOf [m.command_name, m.message]

/-- Static `PlanCommandMessage.simplify`: the two fields simplified
independently, in field order. -/
def PlanCommandMessage.simplify (sd : MsgpackSerde) (worker : AbstractWorker)
    (ptr : PlanCommandMessage) : List PyObj :=
  [sd._simplify worker ptr.command_name, sd._simplify worker ptr.message]

/-- Static `PlanCommandMessage.detail`: unpack exactly two elements
(`command_name, message = msg_tuple`), detail each in order, reconstruct.
Unpacking any other arity raises (ValueError). -/
def PlanCommandMessage.detail (sd : MsgpackSerde) (worker : AbstractWorker)
    (msg_tuple : List PyObj) : Except String PlanCommandMessage :=
  match msg_tuple with
  | [command_name, message] =>
    match sd._detail worker command_name, sd._detail worker message with
    | Except.ok n, Except.ok m => Except.ok (PlanCommandMessage.init n m)
    | Except.error e, _ => Except.error e
    | _, Except.error e => Except.error e
  | _ => Except.error "ValueError: msg_tuple does not unpack into two values"

/-- `ExecuteWorkerFunctionMessage`: named-command variant storing
`command_name` and `message`, structurally identical to
`PlanCommandMessage`. -/
structure ExecuteWorkerFunctionMessage where
  command_name : PyObj
  message : PyObj
  deriving DecidableEq, Repr

/-- `ExecuteWorkerFunctionMessage.__init__`. -/
def ExecuteWorkerFunctionMessage.init (command_name message : PyObj) :
    ExecuteWorkerFunctionMessage :=
  ⟨command_name, message⟩

/-- The `ExecuteWorkerFunctionMessage.contents` property:
`(command_name, message)`. -/
def ExecuteWorkerFunctionMessage.contents (m : ExecuteWorkerFunctionMessage) : PyObj :=
  PyObj.tupleOf [m.command_name, m.message]

/-- Static `ExecuteWorkerFunctionMessage.simplify`: the two fields simplified
independently, in field order. -/
def ExecuteWorkerFunctionMessage.simplify (sd : MsgpackSerde) (worker : AbstractWorker)
    (ptr : ExecuteWorkerFunctionMessage) : List PyObj :=
  [sd._simplify worker ptr.command_name, sd._simplify worker ptr.message]

/-- Static `ExecuteWorkerFunctionMessage.detail`: unpack exactly two
elements, detail each in order, reconstruct.  Unpacking any other arity
raises (ValueError). -/
def ExecuteWorkerFunctionMessage.detail (sd : MsgpackSerde) (worker : AbstractWorker)
    (msg_tuple : List PyObj) : Except String ExecuteWorkerFunctionMessage :=
  match msg_tuple with
  | [command_name, message] =>
    match sd._detail worker command_name, sd._detail worker message with
    | Except.ok n, Except.ok m => Except.ok (ExecuteWorkerFunctionMessage.init n m)
    | Except.error e, _ => Except.error e
    | _, Except.error e => Except.error e
  | _ => Except.error "ValueError: msg_tuple does not unpack into two values"

/-- The identity generic codec: a concrete `MsgpackSerde` instance that
satisfies the round-trip law definitionally. -/
def sdId : MsgpackSerde :=
  ⟨fun _ v => v, fun _ v => Except.ok v⟩

/-- A generic codec whose decode always fails, exercising error
propagation. -/
def sdFail : MsgpackSerde :=
  ⟨fun _ v => v, fun _ _ => Except.error "DecodeError"⟩

/-- A concrete worker context. -/
def w0 : AbstractWorker := ⟨0⟩

/-- A concrete structured codec on action descriptors satisfying the
round-trip law. -/
def apcId : ActionPBCodec :=
  ⟨fun _ a => ⟨a.toPyObj⟩,
   fun _ p =>
     match p.raw with
     | PyObj.action n t a k r => ComputationAction.mk n t a k r
     | _ => ComputationAction.mk PyObj.none PyObj.none PyObj.none PyObj.none PyObj.none⟩

/-- A concrete protobuf value serde satisfying the round-trip law. -/
def psId : ProtobufSerde :=
  ⟨fun _ v => ⟨v⟩, fun _ p => p.raw⟩

/-- Storing a payload through `Message.__init__` and reading it back through
the `contents` property is the identity: a None payload is skipped by the
constructor and reported back as None by the property. -/
theorem contentsView_initContents (p : PyObj) : contentsView (initContents p) = p := by
  by_cases h : p = PyObj.none <;> simp [initContents, contentsView, h]

/-- C1: Generic-codec round-trip: for every message variant in the closed set
(Message, CommandMessage, ObjectMessage, ObjectRequestMessage, IsNoneMessage,
GetShapeMessage, ForceObjectDeleteMessage, SearchMessage, PlanCommandMessage,
ExecuteWorkerFunctionMessage) and every payload, detailing the simplified
form of a constructed instance yields a field-for-field equal instance,
assuming the Generic Value Codec round-trips every value it is handed. -/
theorem c1_generic_roundtrip (sd : MsgpackSerde) (w : AbstractWorker)
    (hrt : ∀ v, sd._detail w (sd._simplify w v) = Except.ok v) :
    (∀ p, Message.detail sd w (Message.simplify sd w (Message.init p))
       = Except.ok (Message.init p)) ∧
    (∀ m : CommandMessage,
      CommandMessage.detail sd w (CommandMessage.simplify sd w m) = Except.ok m) ∧
    (∀ p, ObjectMessage.detail sd w (ObjectMessage.simplify sd w (ObjectMessage.init p))
       = Except.ok (ObjectMessage.init p)) ∧
    (∀ p, ObjectRequestMessage.detail sd w
        (ObjectRequestMessage.simplify sd w (ObjectRequestMessage.init p))
       = Except.ok (ObjectRequestMessage.init p)) ∧
    (∀ p, IsNoneMessage.detail sd w (IsNoneMessage.simplify sd w (IsNoneMessage.init p))
       = Except.ok (IsNoneMessage.init p)) ∧
    (∀ p, GetShapeMessage.detail sd w (GetShapeMessage.simplify sd w (GetShapeMessage.init p))
       = Except.ok (GetShapeMessage.init p)) ∧
    (∀ p, ForceObjectDeleteMessage.detail sd w
        (ForceObjectDeleteMessage.simplify sd w (ForceObjectDeleteMessage.init p))
       = Except.ok (ForceObjectDeleteMessage.init p)) ∧
    (∀ p, SearchMessage.detail sd w (SearchMessage.simplify sd w (SearchMessage.init p))
       = Except.ok (SearchMessage.init p)) ∧
    (∀ m : PlanCommandMessage,
      PlanCommandMessage.detail sd w (PlanCommandMessage.simplify sd w m) = Except.ok m) ∧
    (∀ m : ExecuteWorkerFunctionMessage,
      ExecuteWorkerFunctionMessage.detail sd w (ExecuteWorkerFunctionMessage.simplify sd w m)
       = Except.ok m) := by
  refine ⟨?_, ?_, ?_, ?_, ?_, ?_, ?_, ?_, ?_, ?_⟩
  · intro p
    simp [Message.simplify, Message.detail, hrt, Message.contents, Message.init,
      contentsView_initContents, Except.map]
  · intro m
    obtain ⟨⟨n, t, a, k, r⟩⟩ := m
    simp [CommandMessage.simplify, CommandMessage.detail, hrt, ComputationAction.toPyObj,
      CommandMessage.init]
  · intro p
    simp [ObjectMessage.simplify, ObjectMessage.detail, hrt, ObjectMessage.contents,
      ObjectMessage.init, contentsView_initContents, Except.map]
  · intro p
    simp [ObjectRequestMessage.simplify, ObjectRequestMessage.detail, hrt,
      ObjectRequestMessage.contents, ObjectRequestMessage.init, contentsView_initContents, Except.map]
  · intro p
    simp [IsNoneMessage.simplify, IsNoneMessage.detail, hrt, IsNoneMessage.contents,
      IsNoneMessage.init, contentsView_initContents, Except.map]
  · intro p
    simp [GetShapeMessage.simplify, GetShapeMessage.detail, hrt, GetShapeMessage.contents,
      GetShapeMessage.init, contentsView_initContents, Except.map]
  · intro p
    simp [ForceObjectDeleteMessage.simplify, ForceObjectDeleteMessage.detail, hrt,
      ForceObjectDeleteMessage.contents, ForceObjectDeleteMessage.init, contentsView_initContents, Except.map]
  · intro p
    simp [SearchMessage.simplify, SearchMessage.detail, hrt, SearchMessage.contents,
      SearchMessage.init, contentsView_initContents, Except.map]
  · intro m
    obtain ⟨n, msg⟩ := m
    simp [PlanCommandMessage.simplify, PlanCommandMessage.detail, hrt, PlanCommandMessage.init]
  · intro m
    obtain ⟨n, msg⟩ := m
    simp [ExecuteWorkerFunctionMessage.simplify, ExecuteWorkerFunctionMessage.detail, hrt,
      ExecuteWorkerFunctionMessage.init]

/-- Concrete instance of C1 at the identity codec and payload 42. -/
theorem c1_generic_roundtrip_witness :
    sdId._detail w0 (sdId._simplify w0 (PyObj.int 7)) = Except.ok (PyObj.int 7) ∧
    IsNoneMessage.detail sdId w0 (IsNoneMessage.simplify sdId w0 (IsNoneMessage.init (PyObj.int 42)))
      = Except.ok (IsNoneMessage.init (PyObj.int 42)) :=
  ⟨rfl, (c1_generic_roundtrip sdId w0 (fun _ => rfl)).2.2.2.2.1 (PyObj.int 42)⟩

/-- C2: Structured-codec round-trip: unbufferizing the bufferized protobuf
form of a CommandMessage, or of a constructed ObjectMessage, yields a
field-for-field equal instance, assuming the Structured Schema Codec
round-trips action descriptors and payload values respectively. -/
theorem c2_structured_roundtrip (apc : ActionPBCodec) (ps : ProtobufSerde) (w : AbstractWorker)
    (hact : ∀ a, apc.unbufferize w (apc.bufferize w a) = a)
    (hval : ∀ v, ps._unbufferize w (ps._bufferize w v) = v) :
    (∀ m : CommandMessage,
      CommandMessage.unbufferize apc w (CommandMessage.bufferize apc w m) = m) ∧
    (∀ p : PyObj,
      ObjectMessage.unbufferize ps w (ObjectMessage.bufferize ps w (ObjectMessage.init p))
        = ObjectMessage.init p) := by
  constructor
  · intro m
    obtain ⟨⟨n, t, a, k, r⟩⟩ := m
    simp [CommandMessage.unbufferize, CommandMessage.bufferize, hact, CommandMessage.init]
  · intro p
    simp [ObjectMessage.unbufferize, ObjectMessage.bufferize, hval, ObjectMessage.contents,
      ObjectMessage.init, contentsView_initContents]

/-- Concrete instance of C2 at the identity structured codecs. -/
theorem c2_structured_roundtrip_witness :
    apcId.unbufferize w0 (apcId.bufferize w0 (ComputationAction.mk (PyObj.str "add")
        (PyObj.int 17) PyObj.tnil PyObj.tnil (PyObj.tupleOf [PyObj.int 21])))
      = ComputationAction.mk (PyObj.str "add") (PyObj.int 17) PyObj.tnil PyObj.tnil
        (PyObj.tupleOf [PyObj.int 21]) ∧
    psId._unbufferize w0 (psId._bufferize w0 (PyObj.str "x")) = PyObj.str "x" ∧
    CommandMessage.unbufferize apcId w0
        (CommandMessage.bufferize apcId w0 (CommandMessage.init (PyObj.str "add")
          (PyObj.int 17) PyObj.tnil PyObj.tnil (PyObj.tupleOf [PyObj.int 21])))
      = CommandMessage.init (PyObj.str "add") (PyObj.int 17) PyObj.tnil PyObj.tnil
        (PyObj.tupleOf [PyObj.int 21]) ∧
    ObjectMessage.unbufferize psId w0
        (ObjectMessage.bufferize psId w0 (ObjectMessage.init (PyObj.str "x")))
      = ObjectMessage.init (PyObj.str "x") :=
  ⟨rfl, rfl,
   (c2_structured_roundtrip apcId psId w0 (fun a => by cases a; rfl) (fun _ => rfl)).1
     (CommandMessage.init (PyObj.str "add") (PyObj.int 17) PyObj.tnil PyObj.tnil
       (PyObj.tupleOf [PyObj.int 21])),
   (c2_structured_roundtrip apcId psId w0 (fun a => by cases a; rfl) (fun _ => rfl)).2
     (PyObj.str "x")⟩

/-- C3: Cross-codec equivalence for CommandMessage: decoding the
generic-codec encoding and decoding the structured-codec encoding of the
same CommandMessage yield instances equal on all five accessors, assuming
both codecs round-trip. -/
theorem c3_cross_codec (sd : MsgpackSerde) (apc : ActionPBCodec) (w : AbstractWorker)
    (hrt : ∀ v, sd._detail w (sd._simplify w v) = Except.ok v)
    (hact : ∀ a, apc.unbufferize w (apc.bufferize w a) = a)
    (m : CommandMessage) :
    ∃ g : CommandMessage,
      CommandMessage.detail sd w (CommandMessage.simplify sd w m) = Except.ok g ∧
      g.name = (CommandMessage.unbufferize apc w (CommandMessage.bufferize apc w m)).name ∧
      g.target = (CommandMessage.unbufferize apc w (CommandMessage.bufferize apc w m)).target ∧
      g.args = (CommandMessage.unbufferize apc w (CommandMessage.bufferize apc w m)).args ∧
      g.kwargs = (CommandMessage.unbufferize apc w (CommandMessage.bufferize apc w m)).kwargs ∧
      g.return_ids
        = (CommandMessage.unbufferize apc w (CommandMessage.bufferize apc w m)).return_ids := by
  obtain ⟨⟨n, t, a, k, r⟩⟩ := m
  refine ⟨CommandMessage.init n t a k r, ?_, ?_, ?_, ?_, ?_, ?_⟩ <;>
    simp [CommandMessage.detail, CommandMessage.simplify, hrt, ComputationAction.toPyObj,
      CommandMessage.init, CommandMessage.unbufferize, CommandMessage.bufferize, hact,
      CommandMessage.name, CommandMessage.target, CommandMessage.args, CommandMessage.kwargs,
      CommandMessage.return_ids]

/-- Concrete instance of C3 at the identity codecs. -/
theorem c3_cross_codec_witness :
    sdId._detail w0 (sdId._simplify w0 (PyObj.int 7)) = Except.ok (PyObj.int 7) ∧
    ∃ g : CommandMessage,
      CommandMessage.detail sdId w0 (CommandMessage.simplify sdId w0
          (CommandMessage.init (PyObj.str "add") (PyObj.int 17) PyObj.tnil PyObj.tnil
            (PyObj.tupleOf [PyObj.int 21]))) = Except.ok g ∧
      g.name = (CommandMessage.unbufferize apcId w0 (CommandMessage.bufferize apcId w0
          (CommandMessage.init (PyObj.str "add") (PyObj.int 17) PyObj.tnil PyObj.tnil
            (PyObj.tupleOf [PyObj.int 21])))).name ∧
      g.target = (CommandMessage.unbufferize apcId w0 (CommandMessage.bufferize apcId w0
          (CommandMessage.init (PyObj.str "add") (PyObj.int 17) PyObj.tnil PyObj.tnil
            (PyObj.tupleOf [PyObj.int 21])))).target ∧
      g.args = (CommandMessage.unbufferize apcId w0 (CommandMessage.bufferize apcId w0
          (CommandMessage.init (PyObj.str "add") (PyObj.int 17) PyObj.tnil PyObj.tnil
            (PyObj.tupleOf [PyObj.int 21])))).args ∧
      g.kwargs = (CommandMessage.unbufferize apcId w0 (CommandMessage.bufferize apcId w0
          (CommandMessage.init (PyObj.str "add") (PyObj.int 17) PyObj.tnil PyObj.tnil
            (PyObj.tupleOf [PyObj.int 21])))).kwargs ∧
      g.return_ids = (CommandMessage.unbufferize apcId w0 (CommandMessage.bufferize apcId w0
          (CommandMessage.init (PyObj.str "add") (PyObj.int 17) PyObj.tnil PyObj.tnil
            (PyObj.tupleOf [PyObj.int 21])))).return_ids :=
  ⟨rfl, c3_cross_codec sdId apcId w0 (fun _ => rfl) (fun a => by cases a; rfl)
    (CommandMessage.init (PyObj.str "add") (PyObj.int 17) PyObj.tnil PyObj.tnil
      (PyObj.tupleOf [PyObj.int 21]))⟩

/-- C4 fails as stated: applying ExecuteWorkerFunctionMessage's detail
decoder to the wire tuple produced by PlanCommandMessage's simplify encoder
does not fail with any rejection — at the concrete input
PlanCommandMessage("fetch_plan", ()) with the identity codec it silently
succeeds and returns an ExecuteWorkerFunctionMessage. -/
theorem c4_variant_confusion_counterexample :
    ExecuteWorkerFunctionMessage.detail sdId w0
      (PlanCommandMessage.simplify sdId w0
        (PlanCommandMessage.init (PyObj.str "fetch_plan") PyObj.tnil))
    = Except.ok (ExecuteWorkerFunctionMessage.init (PyObj.str "fetch_plan") PyObj.tnil) := rfl

/-- C4 amended: the named-command detail decoders carry and check no variant
discriminant, so decoding one variant's wire form with the other variant's
decoder silently succeeds, returning an instance of the other variant with
the same (command_name, message) fields, whenever the generic codec
round-trips. -/
theorem c4_variant_confusion_amended (sd : MsgpackSerde) (w : AbstractWorker)
    (hrt : ∀ v, sd._detail w (sd._simplify w v) = Except.ok v) :
    (∀ p : PlanCommandMessage,
      ExecuteWorkerFunctionMessage.detail sd w (PlanCommandMessage.simplify sd w p)
        = Except.ok (ExecuteWorkerFunctionMessage.init p.command_name p.message)) ∧
    (∀ q : ExecuteWorkerFunctionMessage,
      PlanCommandMessage.detail sd w (ExecuteWorkerFunctionMessage.simplify sd w q)
        = Except.ok (PlanCommandMessage.init q.command_name q.message)) := by
  constructor <;> intro x <;> obtain ⟨n, msg⟩ := x <;>
    simp [PlanCommandMessage.simplify, ExecuteWorkerFunctionMessage.simplify,
      PlanCommandMessage.detail, ExecuteWorkerFunctionMessage.detail, hrt,
      PlanCommandMessage.init, ExecuteWorkerFunctionMessage.init]

/-- Concrete instance of the amended C4 at the identity codec. -/
theorem c4_variant_confusion_amended_witness :
    sdId._detail w0 (sdId._simplify w0 (PyObj.int 7)) = Except.ok (PyObj.int 7) ∧
    ExecuteWorkerFunctionMessage.detail sdId w0
      (PlanCommandMessage.simplify sdId w0
        (PlanCommandMessage.init (PyObj.str "run_plan") PyObj.tnil))
    = Except.ok (ExecuteWorkerFunctionMessage.init (PyObj.str "run_plan") PyObj.tnil) :=
  ⟨rfl, (c4_variant_confusion_amended sdId w0 (fun _ => rfl)).1
    (PlanCommandMessage.init (PyObj.str "run_plan") PyObj.tnil)⟩

/-- C5: CommandMessage contents projection: for every CommandMessage
constructed from (name, target, args, kwargs, return_ids), the contents
property returns exactly the two-element tuple
((name, target, args, kwargs), return_ids). -/
theorem c5_contents_projection (name target args_ kwargs_ return_ids : PyObj) :
    (CommandMessage.init name target args_ kwargs_ return_ids).contents
    = PyObj.tupleOf [PyObj.tupleOf [name, target, args_, kwargs_], return_ids] := rfl

/-- C6: Named-command wire shape: simplify emits exactly the two-element
sequence (encoded command_name, encoded message) in field order; detail of a
two-element sequence whose elements decode reconstructs the variant with the
decoded values in that order; and detail of a sequence of any other arity
never succeeds. -/
theorem c6_named_wire_shape (sd : MsgpackSerde) (w : AbstractWorker) :
    (∀ p : PlanCommandMessage,
      PlanCommandMessage.simplify sd w p
        = [sd._simplify w p.command_name, sd._simplify w p.message]) ∧
    (∀ q : ExecuteWorkerFunctionMessage,
      ExecuteWorkerFunctionMessage.simplify sd w q
        = [sd._simplify w q.command_name, sd._simplify w q.message]) ∧
    (∀ a b n m, sd._detail w a = Except.ok n → sd._detail w b = Except.ok m →
      PlanCommandMessage.detail sd w [a, b] = Except.ok (PlanCommandMessage.init n m) ∧
      ExecuteWorkerFunctionMessage.detail sd w [a, b]
        = Except.ok (ExecuteWorkerFunctionMessage.init n m)) ∧
    (∀ xs : List PyObj, xs.length ≠ 2 →
      (∀ p, PlanCommandMessage.detail sd w xs ≠ Except.ok p) ∧
      (∀ q, ExecuteWorkerFunctionMessage.detail sd w xs ≠ Except.ok q)) := by
  refine ⟨fun p => rfl, fun q => rfl, ?_, ?_⟩
  · intro a b n m ha hb
    constructor <;> simp [PlanCommandMessage.detail, ExecuteWorkerFunctionMessage.detail, ha, hb]
  · intro xs hlen
    rcases xs with _ | ⟨a, _ | ⟨b, _ | ⟨c, rest⟩⟩⟩
    · constructor <;> intro x <;>
        simp [PlanCommandMessage.detail, ExecuteWorkerFunctionMessage.detail]
    · constructor <;> intro x <;>
        simp [PlanCommandMessage.detail, ExecuteWorkerFunctionMessage.detail]
    · exact absurd rfl hlen
    · constructor <;> intro x <;>
        simp [PlanCommandMessage.detail, ExecuteWorkerFunctionMessage.detail]

/-- Concrete instance of C6: successful two-element decode and failing
one-element decode at the identity codec. -/
theorem c6_named_wire_shape_witness :
    sdId._detail w0 (PyObj.int 1) = Except.ok (PyObj.int 1) ∧
    PlanCommandMessage.detail sdId w0 [PyObj.int 1, PyObj.int 2]
      = Except.ok (PlanCommandMessage.init (PyObj.int 1) (PyObj.int 2)) ∧
    PlanCommandMessage.detail sdId w0 [PyObj.int 1]
      ≠ Except.ok (PlanCommandMessage.init (PyObj.int 1) (PyObj.int 1)) :=
  ⟨rfl,
   ((c6_named_wire_shape sdId w0).2.2.1 (PyObj.int 1) (PyObj.int 2) (PyObj.int 1) (PyObj.int 2)
     rfl rfl).1,
   ((c6_named_wire_shape sdId w0).2.2.2 [PyObj.int 1] (by decide)).1
     (PlanCommandMessage.init (PyObj.int 1) (PyObj.int 1))⟩

/-- C7: Base-Message graceful-degradation fallback: Message.simplify produces
the sequence whose sole element is the encoded contents, and Message.detail
applied to that sequence never fails when the codec round-trips — it
constructs a base Message holding the decoded value, whose contents is that
value verbatim. -/
theorem c7_base_fallback (sd : MsgpackSerde) (w : AbstractWorker)
    (hrt : ∀ v, sd._detail w (sd._simplify w v) = Except.ok v) (m : Message) :
    Message.simplify sd w m = [sd._simplify w m.contents] ∧
    Message.detail sd w (Message.simplify sd w m) = Except.ok (Message.init m.contents) ∧
    (Message.init m.contents).contents = m.contents := by
  refine ⟨rfl, ?_, ?_⟩
  · simp [Message.simplify, Message.detail, hrt, Except.map]
  · simp [Message.init, Message.contents, contentsView_initContents]

/-- Concrete instance of C7 at the identity codec. -/
theorem c7_base_fallback_witness :
    sdId._detail w0 (sdId._simplify w0 (PyObj.int 7)) = Except.ok (PyObj.int 7) ∧
    Message.detail sdId w0 (Message.simplify sdId w0 (Message.init (PyObj.str "raw")))
      = Except.ok (Message.init (Message.init (PyObj.str "raw")).contents) :=
  ⟨rfl, (c7_base_fallback sdId w0 (fun _ => rfl) (Message.init (PyObj.str "raw"))).2.1⟩

/-- C8: Contents totality: reading the contents property of a well-formed
instance of any variant is total and returns the variant's payload — the
constructor argument for the payload-wrapping variants (None both when a
None payload was given and when the envelope carries no data), and the
documented tuple views for CommandMessage and the named-command variants. -/
theorem c8_contents_totality :
    (∀ p, (Message.init p).contents = p) ∧
    (∀ p, (ObjectMessage.init p).contents = p) ∧
    (∀ p, (ObjectRequestMessage.init p).contents = p) ∧
    (∀ p, (IsNoneMessage.init p).contents = p) ∧
    (∀ p, (GetShapeMessage.init p).contents = p) ∧
    (∀ p, (ForceObjectDeleteMessage.init p).contents = p) ∧
    (∀ p, (SearchMessage.init p).contents = p) ∧
    (∀ n t a k r, (CommandMessage.init n t a k r).contents
       = PyObj.tupleOf [PyObj.tupleOf [n, t, a, k], r]) ∧
    (∀ n m, (PlanCommandMessage.init n m).contents = PyObj.tupleOf [n, m]) ∧
    (∀ n m, (ExecuteWorkerFunctionMessage.init n m).contents = PyObj.tupleOf [n, m]) := by
  refine ⟨?_, ?_, ?_, ?_, ?_, ?_, ?_, fun n t a k r => rfl, fun n m => rfl, fun n m => rfl⟩ <;>
    intro p <;>
    simp [Message.init, Message.contents, ObjectMessage.init, ObjectMessage.contents,
      ObjectRequestMessage.init, ObjectRequestMessage.contents, IsNoneMessage.init,
      IsNoneMessage.contents, GetShapeMessage.init, GetShapeMessage.contents,
      ForceObjectDeleteMessage.init, ForceObjectDeleteMessage.contents, SearchMessage.init,
      SearchMessage.contents, contentsView_initContents]

/-- C9: Decode-error propagation with no partial result: for CommandMessage
and every simple payload-wrapping variant, when the generic codec fails on
the embedded payload, the detail entry point returns exactly that error and
no message instance. -/
theorem c9_decode_error_propagation (sd : MsgpackSerde) (w : AbstractWorker)
    (x : PyObj) (rest : List PyObj) (e : String)
    (hx : sd._detail w x = Except.error e) :
    CommandMessage.detail sd w (x :: rest) = Except.error e ∧
    ObjectMessage.detail sd w (x :: rest) = Except.error e ∧
    ObjectRequestMessage.detail sd w (x :: rest) = Except.error e ∧
    IsNoneMessage.detail sd w (x :: rest) = Except.error e ∧
    GetShapeMessage.detail sd w (x :: rest) = Except.error e ∧
    ForceObjectDeleteMessage.detail sd w (x :: rest) = Except.error e ∧
    SearchMessage.detail sd w (x :: rest) = Except.error e := by
  refine ⟨?_, ?_, ?_, ?_, ?_, ?_, ?_⟩ <;>
    simp [CommandMessage.detail, ObjectMessage.detail, ObjectRequestMessage.detail,
      IsNoneMessage.detail, GetShapeMessage.detail, ForceObjectDeleteMessage.detail,
      SearchMessage.detail, hx, Except.map]

/-- Concrete instance of C9 at the always-failing codec. -/
theorem c9_decode_error_propagation_witness :
    sdFail._detail w0 PyObj.tnil = Except.error "DecodeError" ∧
    CommandMessage.detail sdFail w0 [PyObj.tnil] = Except.error "DecodeError" ∧
    IsNoneMessage.detail sdFail w0 [PyObj.tnil] = Except.error "DecodeError" :=
  ⟨rfl, (c9_decode_error_propagation sdFail w0 PyObj.tnil [] "DecodeError" rfl).1,
   (c9_decode_error_propagation sdFail w0 PyObj.tnil [] "DecodeError" rfl).2.2.2.1⟩

/-- C10: Constructing the base Message or any simple payload-wrapping variant
with the payload None stores no `_contents` attribute, so the resulting
instance is the no-payload envelope itself and its contents property returns
None — a literal None payload is indistinguishable through contents from an
envelope carrying no payload. -/
theorem c10_none_payload_indistinguishable :
    (Message.init PyObj.none = Message.mk Option.none ∧
      (Message.init PyObj.none).contents = PyObj.none) ∧
    (ObjectMessage.init PyObj.none = ObjectMessage.mk Option.none ∧
      (ObjectMessage.init PyObj.none).contents = PyObj.none) ∧
    (ObjectRequestMessage.init PyObj.none = ObjectRequestMessage.mk Option.none ∧
      (ObjectRequestMessage.init PyObj.none).contents = PyObj.none) ∧
    (IsNoneMessage.init PyObj.none = IsNoneMessage.mk Option.none ∧
      (IsNoneMessage.init PyObj.none).contents = PyObj.none) ∧
    (GetShapeMessage.init PyObj.none = GetShapeMessage.mk Option.none ∧
      (GetShapeMessage.init PyObj.none).contents = PyObj.none) ∧
    (ForceObjectDeleteMessage.init PyObj.none = ForceObjectDeleteMessage.mk Option.none ∧
      (ForceObjectDeleteMessage.init PyObj.none).contents = PyObj.none) ∧
    (SearchMessage.init PyObj.none = SearchMessage.mk Option.none ∧
      (SearchMessage.init PyObj.none).contents = PyObj.none) := by
  decide
